import Mathlib

/-!
Verification development for the webpage tracking analyzer
(`computer_use_demo/tools/analyzer.py`).

The analyzer classifies analytics/tracking instrumentation in a static
HTML document.  We embed the document model, the per-family detectors,
the aggregation of coverage/quality flags and the tool-call boundary as
executable Lean definitions, translated from the Python source, and
prove the specification claims about them.

Python regular expressions used by the source are alternations of
literals together with a handful of simple character-class patterns
(`UA-\d+-\d+`, `G-[A-Z0-9]+`, `GTM-[A-Z0-9]+`, `hjid:(\d+)`, ...).
Each is implemented below as an executable scanner with Python
`re.findall` / `re.search` semantics: leftmost, non-overlapping,
greedy (none of these patterns requires backtracking).
-/

namespace Analyzer

/-- ASCII lower-casing of a character, as Python `re.IGNORECASE`
behaves on the ASCII patterns used by the analyzer. -/
def lowerC (c : Char) : Char :=
  if 'A' ≤ c ∧ c ≤ 'Z' then Char.ofNat (c.toNat + 32) else c

def lowerL (cs : List Char) : List Char := cs.map lowerC

/-- `isPrefixL pat s` : `pat` is a prefix of `s` (exact characters). -/
def isPrefixL : List Char → List Char → Bool
  | [], _ => true
  | _ :: _, [] => false
  | p :: ps, c :: cs => p = c && isPrefixL ps cs

/-- Substring test (exact), Python `pat in s`. -/
def containsSub : List Char → List Char → Bool
  | pat, [] => pat.isEmpty
  | pat, c :: cs => isPrefixL pat (c :: cs) || containsSub pat cs

/-- Case-insensitive substring test: `re.search(re.escape(pat), s, re.IGNORECASE)`. -/
def containsCI (pat s : String) : Bool :=
  containsSub (lowerL pat.toList) (lowerL s.toList)

/-- Case-sensitive substring test, Python `pat in s`. -/
def containsCS (pat s : String) : Bool :=
  containsSub pat.toList s.toList

/-- Maximal prefix of digit characters (greedy `\d+` / `\d*`). -/
def takeDigits : List Char → List Char × List Char
  | [] => ([], [])
  | c :: cs =>
    if c.isDigit then
      let (d, r) := takeDigits cs
      (c :: d, r)
    else ([], c :: cs)

/-- Maximal prefix of `[A-Z0-9]` characters. -/
def takeUpperAlnum : List Char → List Char × List Char
  | [] => ([], [])
  | c :: cs =>
    if ('A' ≤ c ∧ c ≤ 'Z') ∨ c.isDigit then
      let (d, r) := takeUpperAlnum cs
      (c :: d, r)
    else ([], c :: cs)

/-- Maximal prefix of `[A-Z0-9]` characters under `re.IGNORECASE`,
i.e. of `[A-Za-z0-9]` characters. -/
def takeAlnumCI : List Char → List Char × List Char
  | [] => ([], [])
  | c :: cs =>
    if ('A' ≤ c ∧ c ≤ 'Z') ∨ ('a' ≤ c ∧ c ≤ 'z') ∨ c.isDigit then
      let (d, r) := takeAlnumCI cs
      (c :: d, r)
    else ([], c :: cs)

/-- Maximal prefix of `\w` characters (`[A-Za-z0-9_]`, ASCII). -/
def takeWord : List Char → List Char × List Char
  | [] => ([], [])
  | c :: cs =>
    if ('A' ≤ c ∧ c ≤ 'Z') ∨ ('a' ≤ c ∧ c ≤ 'z') ∨ c.isDigit ∨ c = '_' then
      let (d, r) := takeWord cs
      (c :: d, r)
    else ([], c :: cs)

/-- Maximal prefix of `\s` characters (Python whitespace). -/
def takeSpaces : List Char → List Char × List Char
  | [] => ([], [])
  | c :: cs =>
    if c = ' ' ∨ c = '\t' ∨ c = '\n' ∨ c = '\r' ∨ c = Char.ofNat 11 ∨ c = Char.ofNat 12 then
      let (d, r) := takeSpaces cs
      (c :: d, r)
    else ([], c :: cs)

/-- A single-position matcher: given the suffix starting at the current
position, either fail or return the captured string together with the
rest of the input after the whole match. -/
abbrev Matcher := List Char → Option (String × List Char)

/-- `re.findall` driver: try the matcher at every position, leftmost,
non-overlapping (resume after each match).  Fuel-indexed for
structural totality; callers pass `cs.length + 1`, which is always
sufficient because every successful match consumes at least one
character. -/
def scanAux (m : Matcher) : Nat → List Char → List String
  | 0, _ => []
  | _ + 1, [] => []
  | fuel + 1, c :: cs =>
    match m (c :: cs) with
    | some (cap, rest) => cap :: scanAux m fuel rest
    | none => scanAux m fuel cs

/-- `re.findall(pattern, s)` for the matcher `m`. -/
def findall (m : Matcher) (s : String) : List String :=
  scanAux m (s.toList.length + 1) s.toList

/-- `re.search(pattern, s)` returning the (first) capture. -/
def searchFirst (m : Matcher) (s : String) : Option String :=
  (findall m s).head?

/-- Match a literal at the current position. -/
def matchLit (lit : String) : Matcher := fun cs =>
  let p := lit.toList
  if isPrefixL p cs then some (lit, cs.drop p.length) else none

/-- Matcher for `UA-\d+-\d+` (case-sensitive), capturing the whole match. -/
def matchUA : Matcher := fun cs =>
  match cs with
  | 'U' :: 'A' :: '-' :: r0 =>
    let (d1, r1) := takeDigits r0
    if d1.isEmpty then none else
      match r1 with
      | '-' :: r2 =>
        let (d2, r3) := takeDigits r2
        if d2.isEmpty then none
        else some (String.mk ('U' :: 'A' :: '-' :: d1 ++ '-' :: d2), r3)
      | _ => none
  | _ => none

/-- Matcher for `UA-\d+-\d+` under `re.IGNORECASE`. -/
def matchUAci : Matcher := fun cs =>
  match cs with
  | u :: a :: '-' :: r0 =>
    if lowerC u = 'u' ∧ lowerC a = 'a' then
      let (d1, r1) := takeDigits r0
      if d1.isEmpty then none else
        match r1 with
        | '-' :: r2 =>
          let (d2, r3) := takeDigits r2
          if d2.isEmpty then none
          else some (String.mk (u :: a :: '-' :: d1 ++ '-' :: d2), r3)
        | _ => none
    else none
  | _ => none

/-- Matcher for `G-[A-Z0-9]+` (case-sensitive). -/
def matchGA4 : Matcher := fun cs =>
  match cs with
  | 'G' :: '-' :: r0 =>
    let (d, r1) := takeUpperAlnum r0
    if d.isEmpty then none
    else some (String.mk ('G' :: '-' :: d), r1)
  | _ => none

/-- Matcher for `G-[A-Z0-9]+` under `re.IGNORECASE`. -/
def matchGA4ci : Matcher := fun cs =>
  match cs with
  | g :: '-' :: r0 =>
    if lowerC g = 'g' then
      let (d, r1) := takeAlnumCI r0
      if d.isEmpty then none
      else some (String.mk (g :: '-' :: d), r1)
    else none
  | _ => none

/-- Matcher for `GTM-[A-Z0-9]+` (case-sensitive). -/
def matchGTM : Matcher := fun cs =>
  match cs with
  | 'G' :: 'T' :: 'M' :: '-' :: r0 =>
    let (d, r1) := takeUpperAlnum r0
    if d.isEmpty then none
    else some (String.mk ('G' :: 'T' :: 'M' :: '-' :: d), r1)
  | _ => none

/-- Matcher for `GTM-[A-Z0-9]+` under `re.IGNORECASE`. -/
def matchGTMci : Matcher := fun cs =>
  match cs with
  | g :: t :: m :: '-' :: r0 =>
    if lowerC g = 'g' ∧ lowerC t = 't' ∧ lowerC m = 'm' then
      let (d, r1) := takeAlnumCI r0
      if d.isEmpty then none
      else some (String.mk (g :: t :: m :: '-' :: d), r1)
    else none
  | _ => none

/-- Matcher for `key(\d+)` style patterns such as `hjid:(\d+)`:
the literal `key` followed by one or more digits, capturing the
digits. -/
def matchKeyDigits (key : String) : Matcher := fun cs =>
  let p := key.toList
  if isPrefixL p cs then
    let (d, r) := takeDigits (cs.drop p.length)
    if d.isEmpty then none else some (String.mk d, r)
  else none

/-- `re.search(r"hjid:(\d+)", s)`, returning group 1. -/
def searchHjid (s : String) : Option String :=
  searchFirst (matchKeyDigits "hjid:") s

/-- `re.search(r"hjsv:(\d+)", s)`, returning group 1. -/
def searchHjsv (s : String) : Option String :=
  searchFirst (matchKeyDigits "hjsv:") s

/-! ## Document model

BeautifulSoup's parsed tree, restricted to what the detectors consult:
a sequence of elements (tag name, ordered attributes, optional string
content — `Tag.string`) and free text nodes.  `find_all` returns the
matching elements in document order; `str(soup)` is the serialized
markup, used for document-wide identifier extraction. -/

structure Element where
  tag : String
  attrs : List (String × String)
  body : Option String
deriving DecidableEq, Repr

inductive Node where
  | elem (e : Element)
  | text (s : String)
deriving DecidableEq, Repr

def Document := List Node

instance : DecidableEq Document := by
  unfold Document; infer_instance

/-- The elements of a document, in document order. -/
def elems (d : Document) : List Element :=
  d.filterMap fun n => match n with | .elem e => some e | .text _ => none

/-- `tag.get(name)` : first attribute with the given name. -/
def getAttr (e : Element) (name : String) : Option String :=
  (e.attrs.find? fun a => a.1 = name).map Prod.snd

/-- Python truthiness of `tag.get("src")`: present and non-empty. -/
def srcTruthy (e : Element) : Bool :=
  match getAttr e "src" with
  | some v => v ≠ ""
  | none => false

/-- Python truthiness of `tag.string`: present and non-empty. -/
def stringTruthy (e : Element) : Bool :=
  match e.body with
  | some s => s ≠ ""
  | none => false

/-- `soup.find_all(tagName, string=re.compile(p))`: elements of the tag
whose string content matches the predicate. -/
def findAllString (d : Document) (tagName : String) (p : String → Bool) : List Element :=
  (elems d).filter fun e =>
    e.tag = tagName && (match e.body with | some s => p s | none => false)

/-- `soup.find_all(tagName, src=re.compile(p))`: elements of the tag
whose `src` attribute matches the predicate. -/
def findAllSrc (d : Document) (tagName : String) (p : String → Bool) : List Element :=
  (elems d).filter fun e =>
    e.tag = tagName && (match getAttr e "src" with | some v => p v | none => false)

/-- `soup.find_all(tagName)`. -/
def findAllTag (d : Document) (tagName : String) : List Element :=
  (elems d).filter fun e => e.tag = tagName

def serializeAttr (a : String × String) : String :=
  " " ++ a.1 ++ "=\"" ++ a.2 ++ "\""

/-- Serialization of one node, as `str(soup)` renders it. -/
def serializeNode : Node → String
  | .text s => s
  | .elem e =>
    "<" ++ e.tag ++ String.join (e.attrs.map serializeAttr) ++ ">"
      ++ e.body.getD "" ++ "</" ++ e.tag ++ ">"

/-- `str(soup)`. -/
def serialize (d : Document) : String :=
  String.join (d.map serializeNode)

/-! ## Python `repr` of strings and lists

`verify_hotjar_implementation` searches `str(scripts)` — the Python
`repr` of a list of strings — for `hjid:\d+`, so we reproduce that
rendering. -/

def pyReprStr (s : String) : String :=
  let hasSingle := s.toList.contains '\''
  let hasDouble := s.toList.contains '"'
  let q : Char := if hasSingle ∧ ¬hasDouble then '"' else '\''
  let esc := s.toList.foldl
    (fun acc c =>
      if c = '\\' then acc ++ "\\\\"
      else if c = q then acc ++ "\\" ++ q.toString
      else if c = '\n' then acc ++ "\\n"
      else if c = '\r' then acc ++ "\\r"
      else if c = '\t' then acc ++ "\\t"
      else acc.push c) ""
  q.toString ++ esc ++ q.toString

/-- `str(xs)` for a Python list of strings. -/
def pyStrList (xs : List String) : String :=
  "[" ++ String.intercalate ", " (xs.map pyReprStr) ++ "]"

/-! ## Google Analytics detection (`detect_google_analytics`) -/

/-- The joined `universal_analytics` pattern
`google-analytics\.com/analytics\.js|ga\(|_gaq\.push|UA-\d+-\d+`
searched with `re.IGNORECASE`. -/
def uaPattern (s : String) : Bool :=
  containsCI "google-analytics.com/analytics.js" s || containsCI "ga(" s
    || containsCI "_gaq.push" s || !(findall matchUAci s).isEmpty

/-- The joined `gtag` pattern
`googletagmanager\.com/gtag/js|gtag\(|G-[A-Z0-9]+` with `re.IGNORECASE`. -/
def gtagPattern (s : String) : Bool :=
  containsCI "googletagmanager.com/gtag/js" s || containsCI "gtag(" s
    || !(findall matchGA4ci s).isEmpty

/-- The joined `tag_manager` pattern
`googletagmanager\.com/gtm\.js|GTM-[A-Z0-9]+` with `re.IGNORECASE`. -/
def gtmPattern (s : String) : Bool :=
  containsCI "googletagmanager.com/gtm.js" s || !(findall matchGTMci s).isEmpty

/-- `script.string if script.string else script.get("src", "")`. -/
def scriptSnippet (e : Element) : String :=
  match e.body with
  | some s => if s ≠ "" then s else (getAttr e "src").getD ""
  | none => (getAttr e "src").getD ""

/-- Content matches followed by source matches for one analytics type,
mapped to their snippets. -/
def gaTypeMatches (d : Document) (p : String → Bool) : List String :=
  (findAllString d "script" p ++ findAllSrc d "script" p).map scriptSnippet

structure GAResults where
  universal_analytics : List String
  gtag : List String
  tag_manager : List String
  ua_ids : List String
  ga4_ids : List String
  gtm_ids : List String
deriving DecidableEq, Repr

def detect_google_analytics (d : Document) : GAResults where
  universal_analytics := gaTypeMatches d uaPattern
  gtag := gaTypeMatches d gtagPattern
  tag_manager := gaTypeMatches d gtmPattern
  ua_ids := findall matchUA (serialize d)
  ga4_ids := findall matchGA4 (serialize d)
  gtm_ids := findall matchGTM (serialize d)

/-! ## Custom events detection (`detect_custom_events`) -/

/-- Matcher for `addEventListener\([\'"\x60](click|submit|change)`,
whose single group makes `re.findall` return the event name. -/
def matchAddEvent : Matcher := fun cs =>
  let p := "addEventListener(".toList
  if isPrefixL p cs then
    match cs.drop p.length with
    | q :: r1 =>
      if q = '\'' ∨ q = '"' ∨ q = Char.ofNat 96 then
        if isPrefixL "click".toList r1 then some ("click", r1.drop 5)
        else if isPrefixL "submit".toList r1 then some ("submit", r1.drop 6)
        else if isPrefixL "change".toList r1 then some ("change", r1.drop 6)
        else none
      else none
    | [] => none
  else none

/-- The four `standard_events` findalls on one script body, in pattern
order (`addEventListener...`, `onclick=`, `onsubmit=`, `onchange=`). -/
def standardEventMatches (s : String) : List String :=
  findall matchAddEvent s ++ findall (matchLit "onclick=") s
    ++ findall (matchLit "onsubmit=") s ++ findall (matchLit "onchange=") s

/-- The four `analytics_events` findalls on one script body, in pattern
order (`track\(`, `trackEvent`, `trackPageview`, `trackCustom`). -/
def analyticsEventMatches (s : String) : List String :=
  findall (matchLit "track(") s ++ findall (matchLit "trackEvent") s
    ++ findall (matchLit "trackPageview") s ++ findall (matchLit "trackCustom") s

/-- `attr.startswith("on")`. -/
def isOnAttr (a : String × String) : Bool := a.1.startsWith "on"

/-- `any(pattern.replace("data-", "") in attr for pattern in data_attributes)`:
the attribute name contains `analytics`, `track` or `event`. -/
def isDataAttr (a : String × String) : Bool :=
  containsCS "analytics" a.1 || containsCS "track" a.1 || containsCS "event" a.1

structure CustomEventResults where
  event_listeners : List String
  inline_handlers : List String
  tracking_calls : List String
  data_attributes : List String
deriving DecidableEq, Repr

def detect_custom_events (d : Document) : CustomEventResults where
  event_listeners :=
    (findAllTag d "script").flatMap fun e =>
      if stringTruthy e then standardEventMatches (e.body.getD "") else []
  tracking_calls :=
    (findAllTag d "script").flatMap fun e =>
      if stringTruthy e then analyticsEventMatches (e.body.getD "") else []
  inline_handlers :=
    ((elems d).filter fun e => e.attrs.any isOnAttr).flatMap fun e =>
      (e.attrs.filter isOnAttr).map fun a => e.tag ++ ": " ++ a.1
  data_attributes :=
    ((elems d).filter fun e => e.attrs.any isDataAttr).flatMap fun e =>
      (e.attrs.filter isDataAttr).map fun a => e.tag ++ ": " ++ a.1

/-! ## Pixel tracking detection (`detect_pixel_tracking`) -/

def fbPattern (s : String) : Bool :=
  containsCI "facebook.com/tr" s || containsCI "connect.facebook.net" s
    || containsCI "fbq(" s

def liPattern (s : String) : Bool :=
  containsCI "linkedin.com/px" s || containsCI "snap.licdn.com" s

def twPattern (s : String) : Bool :=
  containsCI "static.ads-twitter.com" s || containsCI "platform.twitter.com" s

def genPattern (s : String) : Bool :=
  containsCI "pixel" s || containsCI "beacon" s || containsCI "track" s
    || containsCI "analytics" s

structure PixelRef where
  ptype : String
  src : String
deriving DecidableEq, Repr

/-- img, iframe and script pixels for one platform pattern, in the
order the source extends them. -/
def pixelRefs (d : Document) (p : String → Bool) : List PixelRef :=
  ((findAllSrc d "img" p).map fun e => ⟨"img", (getAttr e "src").getD ""⟩)
    ++ ((findAllSrc d "iframe" p).map fun e => ⟨"iframe", (getAttr e "src").getD ""⟩)
    ++ ((findAllSrc d "script" p).map fun e => ⟨"script", (getAttr e "src").getD ""⟩)

/-- Matcher for `fbq\('init',\s*[\'"](\d+)[\'"]`, capturing the digits. -/
def matchFbqInit : Matcher := fun cs =>
  let p := "fbq('init',".toList
  if isPrefixL p cs then
    let (_, r1) := takeSpaces (cs.drop p.length)
    match r1 with
    | q :: r2 =>
      if q = '\'' ∨ q = '"' then
        let (dgs, r3) := takeDigits r2
        if dgs.isEmpty then none else
          match r3 with
          | q2 :: r4 => if q2 = '\'' ∨ q2 = '"' then some (String.mk dgs, r4) else none
          | [] => none
      else none
    | [] => none
  else none

/-- Matcher for `_linkedin_partner_id\s*=\s*[\'"](\d+)[\'"]`. -/
def matchLinkedinId : Matcher := fun cs =>
  let p := "_linkedin_partner_id".toList
  if isPrefixL p cs then
    let (_, r1) := takeSpaces (cs.drop p.length)
    match r1 with
    | '=' :: r2 =>
      let (_, r3) := takeSpaces r2
      match r3 with
      | q :: r4 =>
        if q = '\'' ∨ q = '"' then
          let (dgs, r5) := takeDigits r4
          if dgs.isEmpty then none else
            match r5 with
            | q2 :: r6 => if q2 = '\'' ∨ q2 = '"' then some (String.mk dgs, r6) else none
            | [] => none
        else none
      | [] => none
    | _ => none
  else none

/-- Matcher for `twq\('init',\s*[\'"](\w+)[\'"]`. -/
def matchTwqInit : Matcher := fun cs =>
  let p := "twq('init',".toList
  if isPrefixL p cs then
    let (_, r1) := takeSpaces (cs.drop p.length)
    match r1 with
    | q :: r2 =>
      if q = '\'' ∨ q = '"' then
        let (w, r3) := takeWord r2
        if w.isEmpty then none else
          match r3 with
          | q2 :: r4 => if q2 = '\'' ∨ q2 = '"' then some (String.mk w, r4) else none
          | [] => none
      else none
    | [] => none
  else none

structure PixelResults where
  facebook : List PixelRef
  linkedin : List PixelRef
  twitter : List PixelRef
  generic : List PixelRef
  pixel_ids : List String
deriving DecidableEq, Repr

def detect_pixel_tracking (d : Document) : PixelResults where
  facebook := pixelRefs d fbPattern
  linkedin := pixelRefs d liPattern
  twitter := pixelRefs d twPattern
  generic := pixelRefs d genPattern
  pixel_ids :=
    findall matchFbqInit (serialize d) ++ findall matchLinkedinId (serialize d)
      ++ findall matchTwqInit (serialize d)

/-! ## Hotjar detection (`detect_hotjar` and helpers) -/

/-- The joined Hotjar pattern (all alternatives are literals after
unescaping), searched with `re.IGNORECASE`. -/
def hotjarPattern (s : String) : Bool :=
  containsCI "hotjar" s || containsCI "hj(" s || containsCI "hjid" s
    || containsCI "hjsv" s || containsCI "static.hotjar.com" s
    || containsCI "_hjSettings" s || containsCI "_hjRuntime" s
    || containsCI "_hjIncludedInSample" s || containsCI "_hjRecordingEnabled" s
    || containsCI "_hjMinimizedPolls" s || containsCI "_hjLocalStorageTest" s
    || containsCI "_hjDonePolls" s || containsCI "_hjUserAttributes" s

def hjScriptMatches (d : Document) : List Element :=
  findAllString d "script" hotjarPattern

def hjSourceMatches (d : Document) : List Element :=
  findAllSrc d "script" hotjarPattern

/-- Structural deduplication keeping first occurrences.  `bs4.Tag`
defines structural `__eq__`/`__hash__`, so `set(hj_scripts + hj_sources)`
holds one representative per structurally distinct element; its
iteration ORDER is unspecified, which is why the detection functions
below take the chosen ordering as a parameter. -/
def dedupFirstAux (seen : List Element) : List Element → List Element
  | [] => []
  | e :: es =>
    if e ∈ seen then dedupFirstAux seen es
    else e :: dedupFirstAux (e :: seen) es

/-- The members of `set(hj_scripts + hj_sources)`, in first-occurrence
order (a canonical choice of the unspecified set order). -/
def hotjarTagSet (d : Document) : List Element :=
  dedupFirstAux [] (hjScriptMatches d ++ hjSourceMatches d)

/-- The `all_scripts` comprehension of `detect_hotjar`, applied to the
set members in the iteration order `order`. -/
def hotjarSnippets (order : List Element) : List String :=
  (order.filter fun e => stringTruthy e || srcTruthy e).map scriptSnippet

structure VersionInfo where
  hjid : Option String
  hjsv : Option String
deriving DecidableEq, Repr

/-- `get_hotjar_version`: scan the snippets in order; each match of
`hjid:(\d+)` (resp. `hjsv:(\d+)`) overwrites the stored value. -/
def get_hotjar_version (scripts : List String) : VersionInfo :=
  scripts.foldl
    (fun acc s =>
      { hjid := match searchHjid s with | some v => some v | none => acc.hjid,
        hjsv := match searchHjsv s with | some v => some v | none => acc.hjsv })
    ⟨none, none⟩

structure HotjarVerification where
  has_script : Bool
  has_site_id : Bool
  has_snippet : Bool
deriving DecidableEq, Repr

/-- `bool(re.search(r"hjid:\d+", s))`. -/
def hasHjidNum (s : String) : Bool :=
  !(findall (matchKeyDigits "hjid:") s).isEmpty

/-- `verify_hotjar_implementation(soup, scripts)`.  `has_site_id`
searches `str(scripts)`, the Python repr of the list; `has_snippet`
uses a case-sensitive `static\.hotjar\.com` source search. -/
def verify_hotjar_implementation (d : Document) (scripts : List String) :
    HotjarVerification where
  has_script := !scripts.isEmpty
  has_site_id := hasHjidNum (pyStrList scripts)
  has_snippet := !(findAllSrc d "script" (containsCS "static.hotjar.com")).isEmpty

structure HotjarResults where
  scripts : List String
  verification : HotjarVerification
  version_info : VersionInfo
deriving DecidableEq, Repr

/-- `detect_hotjar`, parameterized by the iteration order of
`set(hj_scripts + hj_sources)` (any permutation of `hotjarTagSet`). -/
def detect_hotjar (d : Document) (order : List Element) : HotjarResults :=
  let scripts := hotjarSnippets order
  { scripts := scripts
    verification := verify_hotjar_implementation d scripts
    version_info := get_hotjar_version scripts }

/-! ## Aggregation (`extract_tracking_code`) -/

structure TrackingCoverage where
  ga_implemented : Bool
  events_implemented : Bool
  pixels_implemented : Bool
  hotjar_implemented : Bool
deriving DecidableEq, Repr

structure ImplementationQuality where
  has_duplicate_ga : Bool
  mixing_ga_versions : Bool
  has_inline_handlers : Bool
  using_data_attributes : Bool
  hotjar_properly_configured : Bool
deriving DecidableEq, Repr

structure Report where
  google_analytics : GAResults
  custom_events : CustomEventResults
  pixel_tracking : PixelResults
  hotjar_tracking : HotjarResults
  total_scripts : Nat
  tracking_coverage : TrackingCoverage
  implementation_quality : ImplementationQuality
deriving DecidableEq, Repr

/-- `extract_tracking_code`, parameterized by the Hotjar set-iteration
order. -/
def extract_tracking_code (d : Document) (hjOrder : List Element) : Report :=
  let ga := detect_google_analytics d
  let ce := detect_custom_events d
  let px := detect_pixel_tracking d
  let hj := detect_hotjar d hjOrder
  { google_analytics := ga
    custom_events := ce
    pixel_tracking := px
    hotjar_tracking := hj
    total_scripts := (findAllTag d "script").length
    tracking_coverage :=
      { ga_implemented := !ga.universal_analytics.isEmpty || !ga.gtag.isEmpty
        events_implemented := !ce.event_listeners.isEmpty || !ce.tracking_calls.isEmpty
        pixels_implemented :=
          !px.facebook.isEmpty || !px.linkedin.isEmpty
            || !px.twitter.isEmpty || !px.generic.isEmpty
        hotjar_implemented := !hj.scripts.isEmpty }
    implementation_quality :=
      { has_duplicate_ga := ga.ua_ids.length > 1
        mixing_ga_versions := !ga.universal_analytics.isEmpty && !ga.gtag.isEmpty
        has_inline_handlers := !ce.inline_handlers.isEmpty
        using_data_attributes := !ce.data_attributes.isEmpty
        hotjar_properly_configured :=
          (verify_hotjar_implementation d hj.scripts).has_script
            && (verify_hotjar_implementation d hj.scripts).has_site_id } }

/-- `extract_tracking_code` at the canonical (first-occurrence) set
order. -/
def extractCanonical (d : Document) : Report :=
  extract_tracking_code d (hotjarTagSet d)

/-! ## Document Model parsing

Modelled from the spec: `parse(rawHtml) -> Document` is provided by a
parsing library (`BeautifulSoup(html_content, "html.parser")`), which is
not under `src/`.  Per spec section 4.1 it "never fails — on malformed
markup it performs best-effort recovery (unclosed tags inferred closed,
unknown tags retained as opaque elements) and always returns a usable
tree".  The parser below is a total best-effort HTML tokenizer in that
spirit: fuel-indexed recursion (fuel = input length + 1, always
sufficient since every step consumes at least one character), flat
element sequence, script bodies captured up to the closing tag or to
the end of input when the tag is unclosed. -/

/-- ASCII lower-casing of a string (kernel-reducible, unlike
`String.toLower`). -/
def asciiLower (s : String) : String := String.mk (lowerL s.toList)

def isNameChar (c : Char) : Bool :=
  ('a' ≤ c ∧ c ≤ 'z') ∨ ('A' ≤ c ∧ c ≤ 'Z') ∨ c.isDigit ∨ c = '-' ∨ c = '_' ∨ c = ':'

def takeNameChars : List Char → List Char × List Char
  | [] => ([], [])
  | c :: cs =>
    if isNameChar c then
      let (n, r) := takeNameChars cs
      (c :: n, r)
    else ([], c :: cs)

/-- Text up to (not including) the next `<`. -/
def takeText : List Char → List Char × List Char
  | [] => ([], [])
  | c :: cs =>
    if c = '<' then ([], c :: cs)
    else
      let (t, r) := takeText cs
      (c :: t, r)

/-- Drop everything up to and including the next `>`. -/
def dropThroughGt : List Char → List Char
  | [] => []
  | c :: cs => if c = '>' then cs else dropThroughGt cs

/-- Characters up to (and consuming) the closing delimiter `q`. -/
def takeUntilChar (q : Char) : List Char → List Char × List Char
  | [] => ([], [])
  | c :: cs =>
    if c = q then ([], cs)
    else
      let (v, r) := takeUntilChar q cs
      (c :: v, r)

/-- Unquoted attribute value: up to whitespace or `>`. -/
def takeUnquoted : List Char → List Char × List Char
  | [] => ([], [])
  | c :: cs =>
    if c = ' ' ∨ c = '\t' ∨ c = '\n' ∨ c = '\r' ∨ c = '>' then ([], c :: cs)
    else
      let (v, r) := takeUnquoted cs
      (c :: v, r)

def isSpaceChar (c : Char) : Bool :=
  c = ' ' ∨ c = '\t' ∨ c = '\n' ∨ c = '\r'

/-- Parse the attribute list of an open tag, up to and consuming the
closing `>` (or the end of input for a tag left unclosed). -/
def parseAttrs : Nat → List Char → List (String × String) × List Char
  | 0, cs => ([], cs)
  | _ + 1, [] => ([], [])
  | fuel + 1, c :: cs =>
    if c = '>' then ([], cs)
    else if isSpaceChar c ∨ c = '/' then parseAttrs fuel cs
    else
      let (nm, r1) := takeNameChars (c :: cs)
      if nm.isEmpty then parseAttrs fuel cs
      else
        match r1 with
        | '=' :: r2 =>
          (match r2 with
           | q :: r3 =>
             if q = '"' ∨ q = '\'' then
               let (v, r4) := takeUntilChar q r3
               let (rest, r5) := parseAttrs fuel r4
               ((asciiLower (String.mk nm), String.mk v) :: rest, r5)
             else
               let (v, r4) := takeUnquoted (q :: r3)
               let (rest, r5) := parseAttrs fuel r4
               ((asciiLower (String.mk nm), String.mk v) :: rest, r5)
           | [] => ([(asciiLower (String.mk nm), "")], []))
        | _ =>
          let (rest, r5) := parseAttrs fuel r1
          ((asciiLower (String.mk nm), "") :: rest, r5)

/-- Case-insensitive prefix test. -/
def isPrefixCI (pat : List Char) (cs : List Char) : Bool :=
  isPrefixL (lowerL pat) (lowerL (cs.take pat.length))

/-- Script body: up to the closing `</script` (case-insensitive) or to
the end of input for an unclosed script tag. -/
def takeScriptBody : List Char → List Char × List Char
  | [] => ([], [])
  | c :: cs =>
    if isPrefixCI "</script".toList (c :: cs) then ([], c :: cs)
    else
      let (b, r) := takeScriptBody cs
      (c :: b, r)

def parseNodes : Nat → List Char → List Node
  | 0, _ => []
  | _ + 1, [] => []
  | fuel + 1, '<' :: cs =>
    (match cs with
     | '/' :: r => parseNodes fuel (dropThroughGt r)
     | _ =>
       let (nm, r1) := takeNameChars cs
       if nm.isEmpty then
         -- a lone `<` that opens no tag: best-effort, keep as text
         Node.text "<" :: parseNodes fuel cs
       else
         let tag := asciiLower (String.mk nm)
         let (attrs, r2) := parseAttrs fuel r1
         if tag = "script" then
           let (body, r3) := takeScriptBody r2
           Node.elem ⟨tag, attrs, some (String.mk body)⟩
             :: parseNodes fuel (dropThroughGt r3)
         else
           Node.elem ⟨tag, attrs, none⟩ :: parseNodes fuel r2)
  | fuel + 1, c :: cs =>
    let (t, r) := takeText (c :: cs)
    Node.text (String.mk t) :: parseNodes fuel r

/-- `BeautifulSoup(html_content, "html.parser")`, modelled from the
spec as a total best-effort parse. -/
def parseHtml (s : String) : Document :=
  parseNodes (s.toList.length + 1) s.toList

/-- The full detection pipeline on raw markup. -/
def extractFromHtml (s : String) : Report :=
  extractCanonical (parseHtml s)

/-! ## Formatting and the tool-call boundary (`__call__`) -/

/-- `_format_quality_metrics`: one bullet per true flag, in the
dictionary's insertion order. -/
def qualityMessages (q : ImplementationQuality) : List String :=
  (if q.has_duplicate_ga then
    ["- Multiple GA implementations detected (not recommended)"] else [])
  ++ (if q.mixing_ga_versions then
    ["- Mixed GA versions detected (should standardize)"] else [])
  ++ (if q.has_inline_handlers then
    ["- Using inline event handlers (consider using addEventListener)"] else [])
  ++ (if q.using_data_attributes then
    ["- Using data attributes for tracking (good practice)"] else [])
  ++ (if q.hotjar_properly_configured then
    ["- Hotjar is properly configured with script and site ID"] else [])

def format_quality_metrics (q : ImplementationQuality) : String :=
  String.intercalate "\n" (qualityMessages q)

/-- The formatted output of `__call__` (the f-string, with the
surrounding indentation normalized; no claim inspects the exact
whitespace). -/
def formatOutput (url analysis : String) (r : Report) : String :=
  "Webpage Event Tracking Analysis for " ++ url ++ "\n"
    ++ "=====================================\n\n"
    ++ analysis ++ "\n\n"
    ++ "Tracking Implementation Details:\n"
    ++ "-----------------------------\n"
    ++ "Google Analytics:\n"
    ++ "- Universal Analytics: "
      ++ toString r.google_analytics.universal_analytics.length ++ " implementations\n"
    ++ "- Google Tag Manager: "
      ++ toString r.google_analytics.tag_manager.length ++ " implementations\n"
    ++ "- GA4 (gtag): " ++ toString r.google_analytics.gtag.length ++ " implementations\n\n"
    ++ "Custom Events:\n"
    ++ "- Event Listeners: " ++ toString r.custom_events.event_listeners.length ++ " listeners\n"
    ++ "- Inline Handlers: " ++ toString r.custom_events.inline_handlers.length ++ " handlers\n"
    ++ "- Tracking Calls: " ++ toString r.custom_events.tracking_calls.length ++ " calls\n\n"
    ++ "Pixel Tracking:\n"
    ++ "- Facebook: " ++ toString r.pixel_tracking.facebook.length ++ " pixels\n"
    ++ "- LinkedIn: " ++ toString r.pixel_tracking.linkedin.length ++ " pixels\n"
    ++ "- Twitter: " ++ toString r.pixel_tracking.twitter.length ++ " pixels\n"
    ++ "- Generic: " ++ toString r.pixel_tracking.generic.length ++ " pixels\n\n"
    ++ "Hotjar Tracking:\n"
    ++ "- Scripts Found: " ++ toString r.hotjar_tracking.scripts.length ++ "\n"
    ++ "- Properly Configured: "
      ++ toString (r.hotjar_tracking.verification.has_script
            && r.hotjar_tracking.verification.has_site_id) ++ "\n"
    ++ "- Site ID Present: " ++ toString r.hotjar_tracking.verification.has_site_id ++ "\n\n"
    ++ "Implementation Quality:\n"
    ++ "--------------------\n"
    ++ format_quality_metrics r.implementation_quality

/-- Modelled from the spec: the result envelope `ToolResult` comes from
`tools/base.py`, which is not under `src/`.  Per spec section 6 the
output is "either a success value containing the formatted report
string plus a short status note, or a failure value containing an
error message — never both".  We keep the three optional fields the
call sites populate. -/
structure ToolResult where
  output : Option String := none
  error : Option String := none
  system : Option String := none
deriving DecidableEq, Repr

/-- Modelled from the spec: the external Fetcher collaborator (spec
section 6): `Fetcher.fetch(url, timeoutMs) -> rawHtml | FetchError`. -/
inductive FetchResult where
  | ok (html : String)
  | err (msg : String)
deriving DecidableEq, Repr

/-- Modelled from the spec: the external Summarizer collaborator (spec
section 6): `Summarizer.summarize(report) -> narrativeText | SummarizerError`. -/
inductive SummarizeResult where
  | ok (text : String)
  | err (msg : String)
deriving DecidableEq, Repr

/-- `__call__`: validate the url (Python falsiness: absent or empty),
fetch, extract, summarize, format; every raised `ToolError` is caught
at the boundary and becomes `ToolResult(error=...)`. -/
def toolCall (url : Option String) (fetch : String → FetchResult)
    (summarize : Report → SummarizeResult) : ToolResult :=
  match url with
  | none => { error := some "URL is required" }
  | some u =>
    if u = "" then { error := some "URL is required" }
    else
      match fetch u with
      | .err m => { error := some m }
      | .ok html =>
        let data := extractFromHtml html
        match summarize data with
        | .err m => { error := some m }
        | .ok analysis =>
          { output := some (formatOutput u analysis data)
            system := some ("Successfully analyzed event tracking for " ++ u) }

/-! ## Concrete documents used by the claims -/

/-- A `<script>` element with the given body and no attributes. -/
def scriptBody (b : String) : Node := .elem ⟨"script", [], some b⟩

/-- Two identical Universal-Analytics scripts. -/
def docRepeatedGA : Document :=
  [scriptBody "ga('send','pageview')", scriptBody "ga('send','pageview')"]

/-- One distinct UA identifier occurring twice. -/
def docRepeatedUA : Document := [scriptBody "UA-12345-1;UA-12345-1"]

/-- Two distinct UA identifiers. -/
def docTwoUA : Document :=
  [scriptBody "ga('create','UA-12345-1');ga('create','UA-77777-2');"]

/-- A single UA identifier occurring once. -/
def docOneUA : Document := [scriptBody "ga('create','UA-12345-1');"]

/-- The C3 document: only tracking content is `gtag('config','G-ABC123')`. -/
def docGtag : Document := [scriptBody "gtag('config','G-ABC123')"]

/-- The C4 Hotjar configuration body. -/
def hjConfigBody : String := "_hjSettings: hjid:1234567,hjsv:6"

/-- The C4 document: a Hotjar config script plus the vendor script tag. -/
def docHotjar : Document :=
  [scriptBody hjConfigBody,
   .elem ⟨"script", [("src", "https://static.hotjar.com/c/hotjar-1234567.js")], none⟩]

/-- Two identical Hotjar scripts (structurally equal elements). -/
def docHotjarDup : Document :=
  [scriptBody "hj(1); hjid:9", scriptBody "hj(1); hjid:9"]

/-- Two Hotjar scripts carrying different `hjid` values. -/
def hjElemA : Element := ⟨"script", [], some "hjid:111"⟩

def hjElemB : Element := ⟨"script", [], some "hjid:222"⟩

def docTwoHjid : Document := [.elem hjElemA, .elem hjElemB]

/-- A script registering a click listener. -/
def docListener : Document :=
  [scriptBody "document.addEventListener('click', handler);"]

/-- A mixed document: a UA content match, a UA source match, and a
script with listener/tracking-call matches. -/
def docMixed : Document :=
  [scriptBody "ga('send','pageview')",
   .elem ⟨"script", [("src", "https://www.google-analytics.com/analytics.js")], none⟩,
   scriptBody "el.addEventListener('click', f); trackEvent('x');"]

/-! ## Spec-side definitions (the claims' wording, for comparison) -/

/-- The number of distinct `UA-\d+-\d+` identifiers occurring in the
document, following the claim's wording for `has_duplicate_ga`. -/
def distinctUACount (d : Document) : Nat :=
  ((findall matchUA (serialize d)).dedup).length

/-- The claim's wording for `get_hotjar_version`: the first regex match
inside the last snippet, in snippet-list order, that contains a match;
absent when no snippet matches. -/
def lastMatchingSnippet (p : String → Option String) (scripts : List String) :
    Option String :=
  match (scripts.filter fun s => (p s).isSome).getLast? with
  | some s => p s
  | none => none

/-- One component of the `get_hotjar_version` fold. -/
def versionStep (p : String → Option String) (acc : Option String) (s : String) :
    Option String :=
  match p s with
  | some v => some v
  | none => acc

/-! ## Helper lemmas -/

lemma perm_isEmpty {α : Type} {l₁ l₂ : List α} (h : l₁.Perm l₂) :
    l₁.isEmpty = l₂.isEmpty := by
  have hl := h.length_eq
  cases l₁ <;> cases l₂ <;> simp_all

lemma get_hotjar_version_eq_fold (scripts : List String) :
    get_hotjar_version scripts =
      scripts.foldl
        (fun acc s =>
          ⟨versionStep searchHjid acc.hjid s, versionStep searchHjsv acc.hjsv s⟩)
        ⟨none, none⟩ := rfl

lemma foldl_pair_version (l : List String) (acc : VersionInfo) :
    l.foldl
        (fun acc s =>
          ⟨versionStep searchHjid acc.hjid s, versionStep searchHjsv acc.hjsv s⟩)
        acc
      = ⟨l.foldl (versionStep searchHjid) acc.hjid,
         l.foldl (versionStep searchHjsv) acc.hjsv⟩ := by
  induction l generalizing acc with
  | nil => cases acc; rfl
  | cons a l ih =>
    simp only [List.foldl_cons]
    exact ih _

lemma foldl_overwrite (p : String → Option String) (l : List String)
    (init : Option String) :
    l.foldl (versionStep p) init
      = (match (l.filter fun s => (p s).isSome).getLast? with
         | some s => p s
         | none => init) := by
  induction l generalizing init with
  | nil => rfl
  | cons a l ih =>
    rw [List.foldl_cons, ih, List.filter_cons]
    cases hpa : p a with
    | some v =>
      simp only [hpa, Option.isSome_some, if_true]
      cases hf : (l.filter fun s => (p s).isSome) with
      | nil => simp [hf, versionStep, hpa]
      | cons b bs =>
        rw [List.getLast?_cons_cons]
        cases hl : (b :: bs).getLast? with
        | some s => rfl
        | none => simp [List.getLast?_eq_none_iff] at hl
    | none =>
      simp [hpa, versionStep]

end Analyzer

namespace Analyzer

/-! ## The claims -/

/-- C1 (corrected; counterexample): the snippet collections are NOT
duplicate-free: a document repeating an identical matching script
snippet twice yields a universal-analytics snippet list with that
snippet twice, not a set of size one. -/
theorem C1_counterexample :
    (extractCanonical docRepeatedGA).google_analytics.universal_analytics
        = ["ga('send','pageview')", "ga('send','pageview')"]
      ∧ ¬ ((extractCanonical docRepeatedGA).google_analytics.universal_analytics.length = 1)
      ∧ ¬ (extractCanonical docRepeatedGA).google_analytics.universal_analytics.Nodup := by
  decide

/-- C1 (corrected, amended claim): snippet and identifier collections
are lists that keep one entry per match and may contain duplicate
strings — a repeated identical matching snippet appears twice in the
universal-analytics snippet list, and a repeated identifier appears
once per occurrence in the identifier list; only Hotjar deduplicates
(structurally equal script elements collapse, so the same repeated
Hotjar script yields a single snippet). -/
theorem C1_corrected :
    (extractCanonical docRepeatedGA).google_analytics.universal_analytics.length = 2
      ∧ (extractCanonical docRepeatedGA).google_analytics.universal_analytics.dedup.length = 1
      ∧ (extractCanonical docRepeatedUA).google_analytics.ua_ids
          = ["UA-12345-1", "UA-12345-1"]
      ∧ (extractCanonical docHotjarDup).hotjar_tracking.scripts = ["hj(1); hjid:9"] := by
  decide

/-- C2 (corrected; counterexample): a document with exactly one
distinct UA identifier occurring twice has `has_duplicate_ga = true`,
contradicting the claim that the flag tracks the number of DISTINCT
identifiers. -/
theorem C2_counterexample :
    distinctUACount docRepeatedUA = 1
      ∧ (extractCanonical docRepeatedUA).implementation_quality.has_duplicate_ga = true := by
  decide

/-- C2 (corrected, amended claim): `has_duplicate_ga` is true exactly
when the number of OCCURRENCES of `UA-<digits>-<digits>` matches in the
serialized document (non-overlapping `re.findall` matches, duplicates
included) is greater than one; a document with two distinct identifiers
still gets `true` and a single occurrence still gets `false`. -/
theorem C2_corrected :
    (∀ (d : Document) (o : List Element),
      (extract_tracking_code d o).implementation_quality.has_duplicate_ga
        = decide (1 < (findall matchUA (serialize d)).length))
      ∧ (extractCanonical docTwoUA).implementation_quality.has_duplicate_ga = true
      ∧ (extractCanonical docOneUA).implementation_quality.has_duplicate_ga = false := by
  refine ⟨fun d o => rfl, by decide, by decide⟩

/-- C3 (confirmed): for the document whose only tracking content is a
script with body `gtag('config','G-ABC123')`, the Gtag snippet list is
non-empty, the GA4 identifier list is exactly `["G-ABC123"]`, and
`ga_implemented` is true. -/
theorem C3_gtag_detection :
    (extractCanonical docGtag).google_analytics.gtag ≠ []
      ∧ (extractCanonical docGtag).google_analytics.ga4_ids = ["G-ABC123"]
      ∧ (extractCanonical docGtag).tracking_coverage.ga_implemented = true := by
  decide

/-- C4 (confirmed): for a document with a Hotjar script containing
`hjid:1234567` and a `<script src="https://static.hotjar.com/c/hotjar-1234567.js">`,
`hotjar_properly_configured` (= `has_script AND has_site_id`) is true
and the extracted `hjid` is `"1234567"`. -/
theorem C4_hotjar_configuration :
    (extractCanonical docHotjar).implementation_quality.hotjar_properly_configured = true
      ∧ (extractCanonical docHotjar).hotjar_tracking.verification.has_script = true
      ∧ (extractCanonical docHotjar).hotjar_tracking.verification.has_site_id = true
      ∧ (extractCanonical docHotjar).hotjar_tracking.scripts ≠ []
      ∧ (extractCanonical docHotjar).hotjar_tracking.version_info.hjid = some "1234567" := by
  decide

/-- C5 (confirmed): whenever a detection run found no tracker matches
(every family's snippet and identifier list is empty), all four
coverage flags and all five quality flags are false. -/
theorem C5_tracker_free (d : Document) (o : List Element)
    (hua : (extract_tracking_code d o).google_analytics.universal_analytics = [])
    (hgt : (extract_tracking_code d o).google_analytics.gtag = [])
    (htm : (extract_tracking_code d o).google_analytics.tag_manager = [])
    (hui : (extract_tracking_code d o).google_analytics.ua_ids = [])
    (hg4 : (extract_tracking_code d o).google_analytics.ga4_ids = [])
    (hgm : (extract_tracking_code d o).google_analytics.gtm_ids = [])
    (hel : (extract_tracking_code d o).custom_events.event_listeners = [])
    (hih : (extract_tracking_code d o).custom_events.inline_handlers = [])
    (htc : (extract_tracking_code d o).custom_events.tracking_calls = [])
    (hda : (extract_tracking_code d o).custom_events.data_attributes = [])
    (hfb : (extract_tracking_code d o).pixel_tracking.facebook = [])
    (hli : (extract_tracking_code d o).pixel_tracking.linkedin = [])
    (htw : (extract_tracking_code d o).pixel_tracking.twitter = [])
    (hge : (extract_tracking_code d o).pixel_tracking.generic = [])
    (hpi : (extract_tracking_code d o).pixel_tracking.pixel_ids = [])
    (hhs : (extract_tracking_code d o).hotjar_tracking.scripts = []) :
    (extract_tracking_code d o).tracking_coverage = ⟨false, false, false, false⟩
      ∧ (extract_tracking_code d o).implementation_quality
          = ⟨false, false, false, false, false⟩ := by
  simp only [extract_tracking_code, detect_hotjar, verify_hotjar_implementation] at *
  rw [hua, hgt, hui, hel, hih, htc, hda, hfb, hli, htw, hge, hhs]
  simp

/-- C5 witness: the empty document satisfies all the emptiness
hypotheses, and its flags are all false. -/
theorem C5_tracker_free_witness :
    (extractCanonical []).tracking_coverage = ⟨false, false, false, false⟩
      ∧ (extractCanonical []).implementation_quality
          = ⟨false, false, false, false, false⟩ :=
  C5_tracker_free [] (hotjarTagSet []) rfl rfl rfl rfl rfl rfl rfl rfl
    rfl rfl rfl rfl rfl rfl rfl rfl

/-- C6 (confirmed): the detection pipeline is a total function of the
raw markup — every input string yields a Report — and concretely the
malformed documents (an unclosed `<script>` tag; an invalid attribute
`foo=` with no value) still produce a Report, with the unclosed script
counted and the malformed region degrading to empty detections. -/
theorem C6_detection_total :
    (∀ s : String, ∃ r : Report, extractFromHtml s = r)
      ∧ (extractFromHtml "<script>var a = 1;").total_scripts = 1
      ∧ (extractFromHtml "<p foo=>bar</p>").total_scripts = 0
      ∧ (extractFromHtml "<p foo=>bar</p>").tracking_coverage
          = ⟨false, false, false, false⟩ := by
  refine ⟨fun s => ⟨extractFromHtml s, rfl⟩, by decide, by decide, by decide⟩

/-- C7 (confirmed): every invocation yields either a success value
(output and status note set, error unset) or a failure value (error
set, output and status unset), never both; and a missing or empty url
yields the validation failure independently of the fetcher and
summarizer, i.e. before any I/O. -/
theorem C7_result_contract :
    (∀ (u : Option String) (f : String → FetchResult) (g : Report → SummarizeResult),
        ((toolCall u f g).output.isSome ∧ (toolCall u f g).system.isSome
            ∧ (toolCall u f g).error = none)
          ∨ ((toolCall u f g).error.isSome ∧ (toolCall u f g).output = none
            ∧ (toolCall u f g).system = none))
      ∧ (∀ f g, toolCall none f g = { error := some "URL is required" })
      ∧ (∀ f g, toolCall (some "") f g = { error := some "URL is required" }) := by
  refine ⟨?_, fun f g => rfl, fun f g => rfl⟩
  intro u f g
  cases u with
  | none => right; exact ⟨rfl, rfl, rfl⟩
  | some u =>
    by_cases h : u = ""
    · right
      simp [toolCall, h]
    · cases hf : f u with
      | err m =>
        right
        simp [toolCall, h, hf]
      | ok html =>
        cases hs : g (extractFromHtml html) with
        | err m =>
          right
          simp [toolCall, h, hf, hs]
        | ok t =>
          left
          simp [toolCall, h, hf, hs]

/-- C8 (corrected; counterexample): the Report is NOT independent of
the unspecified iteration order of `set(hj_scripts + hj_sources)`:
for a document with two Hotjar scripts carrying different `hjid`
values, the two admissible orders yield different Reports (the
last-written `hjid` differs), so two fresh invocations need not be
value-equal. -/
theorem C8_counterexample :
    List.Perm [hjElemA, hjElemB] (hotjarTagSet docTwoHjid)
      ∧ List.Perm [hjElemB, hjElemA] (hotjarTagSet docTwoHjid)
      ∧ extract_tracking_code docTwoHjid [hjElemA, hjElemB]
          ≠ extract_tracking_code docTwoHjid [hjElemB, hjElemA] := by
  refine ⟨by decide, by decide, by decide⟩

/-- C8 (corrected, amended claim): re-running detection on the same
document is deterministic in everything except the Hotjar set-iteration
order: for any two admissible orders the Reports agree on the Google
Analytics, custom-event and pixel results, the script count, all
coverage flags, and the order-independent quality flags, and the two
Hotjar snippet lists are permutations of each other; only the Hotjar
snippet ordering and the `hjid`/`hjsv` values drawn from it may
differ. -/
theorem C8_corrected (d : Document) (o₁ o₂ : List Element)
    (h₁ : o₁.Perm (hotjarTagSet d)) (h₂ : o₂.Perm (hotjarTagSet d)) :
    (extract_tracking_code d o₁).google_analytics
        = (extract_tracking_code d o₂).google_analytics
      ∧ (extract_tracking_code d o₁).custom_events
          = (extract_tracking_code d o₂).custom_events
      ∧ (extract_tracking_code d o₁).pixel_tracking
          = (extract_tracking_code d o₂).pixel_tracking
      ∧ (extract_tracking_code d o₁).total_scripts
          = (extract_tracking_code d o₂).total_scripts
      ∧ (extract_tracking_code d o₁).tracking_coverage
          = (extract_tracking_code d o₂).tracking_coverage
      ∧ ((extract_tracking_code d o₁).hotjar_tracking.scripts).Perm
          ((extract_tracking_code d o₂).hotjar_tracking.scripts)
      ∧ (extract_tracking_code d o₁).implementation_quality.has_duplicate_ga
          = (extract_tracking_code d o₂).implementation_quality.has_duplicate_ga
      ∧ (extract_tracking_code d o₁).implementation_quality.mixing_ga_versions
          = (extract_tracking_code d o₂).implementation_quality.mixing_ga_versions
      ∧ (extract_tracking_code d o₁).implementation_quality.has_inline_handlers
          = (extract_tracking_code d o₂).implementation_quality.has_inline_handlers
      ∧ (extract_tracking_code d o₁).implementation_quality.using_data_attributes
          = (extract_tracking_code d o₂).implementation_quality.using_data_attributes := by
  have hp : o₁.Perm o₂ := h₁.trans h₂.symm
  have hs : (hotjarSnippets o₁).Perm (hotjarSnippets o₂) := (hp.filter _).map _
  have he : (hotjarSnippets o₁).isEmpty = (hotjarSnippets o₂).isEmpty := perm_isEmpty hs
  refine ⟨rfl, rfl, rfl, rfl, ?_, hs, rfl, rfl, rfl, rfl⟩
  simp only [extract_tracking_code, detect_hotjar, TrackingCoverage.mk.injEq, he,
    and_self, true_and, and_true]

/-- C8 witness: the amended determinism theorem applied at the
two-Hotjar-script document with the canonical order on both sides. -/
theorem C8_corrected_witness :
    List.Perm (hotjarTagSet docTwoHjid) (hotjarTagSet docTwoHjid)
      ∧ (extract_tracking_code docTwoHjid (hotjarTagSet docTwoHjid)).tracking_coverage
          = (extract_tracking_code docTwoHjid (hotjarTagSet docTwoHjid)).tracking_coverage :=
  ⟨List.Perm.refl _,
    (C8_corrected docTwoHjid (hotjarTagSet docTwoHjid) (hotjarTagSet docTwoHjid)
        (List.Perm.refl _) (List.Perm.refl _)).2.2.2.2.1⟩

/-- C9 (corrected; counterexample): the EventListener results do NOT
record the matched script body: for a script whose body registers a
click listener, the recorded entry is the captured fragment `"click"`,
not the body. -/
theorem C9_counterexample :
    (extractCanonical docListener).custom_events.event_listeners = ["click"]
      ∧ "click" ≠ "document.addEventListener('click', handler);" := by
  decide

/-- C9 (corrected, amended claim): the Google Analytics (and Hotjar)
detectors record the full matched script body for content matches and
the source URL for source matches, but the EventListener and
TrackingCall results record only the regex match fragments — the
captured event name for `addEventListener(...)` and the literal
matched text for the tracking-call patterns. -/
theorem C9_corrected :
    (extractCanonical docMixed).google_analytics.universal_analytics
        = ["ga('send','pageview')", "https://www.google-analytics.com/analytics.js"]
      ∧ (extractCanonical docMixed).custom_events.event_listeners = ["click"]
      ∧ (extractCanonical docMixed).custom_events.tracking_calls = ["trackEvent"] := by
  decide

/-- C10 (confirmed): for every snippet list, the extracted `hjid`
(resp. `hjsv`) equals the first regex match of `hjid:(\d+)` (resp.
`hjsv:(\d+)`) inside the last snippet, in list order, containing such a
match; snippets without a match leave earlier values unchanged, and
with no matching snippet the value is absent. -/
theorem C10_version_last_match (scripts : List String) :
    (get_hotjar_version scripts).hjid = lastMatchingSnippet searchHjid scripts
      ∧ (get_hotjar_version scripts).hjsv = lastMatchingSnippet searchHjsv scripts := by
  rw [get_hotjar_version_eq_fold, foldl_pair_version]
  unfold lastMatchingSnippet
  rw [foldl_overwrite, foldl_overwrite]
  exact ⟨rfl, rfl⟩

end Analyzer
